import Mathlib

/-!
Shallow embedding of the DevKB VS Code extension client
(`src/extension.ts`).  Each command handler is modelled as a pure
function from its user-supplied inputs (input boxes, quick picks, the
active editor selection) and the outcome of the underlying `fetch`
call to the ordered list of observable effects it performs: the HTTP
request it issues, the notifications it shows, the documents it
opens, and the quick picks it displays.
-/

namespace DevKB

/-- Configuration read via `vscode.workspace.getConfiguration('devkb')`:
`none` models an unset key, `some s` a set string value. -/
structure Config where
  apiUrl : Option String
  dataDir : Option String
deriving Repr, DecidableEq

/-- JavaScript `s.split(sep)` on the character list of `s`, for a
single-character separator: the (possibly empty) segments of the list
between occurrences of `sep`. -/
def jsSplitChars (sep : Char) : List Char → List (List Char)
  | [] => [[]]
  | x :: xs =>
    if x = sep then [] :: jsSplitChars sep xs
    else
      match jsSplitChars sep xs with
      | [] => [[x]]
      | y :: ys => (x :: y) :: ys

/-- JavaScript `s.split(sep)` for a single-character separator. -/
def jsSplit (s : String) (sep : Char) : List String :=
  (jsSplitChars sep s.data).map fun l => ⟨l⟩

/-- JavaScript `s.trim()` on a character list: leading and trailing
whitespace removed. -/
def jsTrimChars (l : List Char) : List Char :=
  ((l.dropWhile Char.isWhitespace).reverse.dropWhile
    Char.isWhitespace).reverse

/-- JavaScript `s.trim()` : leading and trailing whitespace removed. -/
def jsTrim (s : String) : String := ⟨jsTrimChars s.data⟩

/-- JavaScript `s.toLowerCase()` : every character mapped to its
lowercase form. -/
def jsToLowerCase (s : String) : String := ⟨s.data.map Char.toLower⟩

/-- JavaScript `s.substring(0, n)` : the first `n` characters of `s`
(all of `s` when it is shorter). -/
def jsSubstring (s : String) (n : Nat) : String := ⟨s.data.take n⟩

/-- JavaScript `a || b` for an optional string `a` and a string default
`b`: `undefined` and the empty string are falsy. -/
def jsOrStr (a : Option String) (b : String) : String :=
  match a with
  | none => b
  | some s => if s.isEmpty then b else s

/-- JavaScript truthiness test `!x` for an optional string:
true exactly when the value is `undefined` or the empty string. -/
def strFalsy (a : Option String) : Bool :=
  match a with
  | none => true
  | some s => s.isEmpty

/-- `getApiUrl` : `getConfig().get('apiUrl') || 'http://localhost:3001'`. -/
def getApiUrl (cfg : Config) : String :=
  jsOrStr cfg.apiUrl "http://localhost:3001"

/-- `getDataDir` : `getConfig().get('dataDir') || '.devkb'`. -/
def getDataDir (cfg : Config) : String :=
  jsOrStr cfg.dataDir ".devkb"

/-- The entry-creation payload built in `addEntry` and sent as the JSON
body of `POST /api/entries`; its fields are exactly the keys of the
object literal at `extension.ts:142-148`. -/
structure EntryPayload where
  type : String
  title : String
  content : String
  tags : List String
  source : String
deriving Repr, DecidableEq

/-- JSON request bodies the client serializes: `{question}` for
`/api/ask` and the entry payload for `/api/entries`. -/
inductive ReqBody where
  | ask (question : String)
  | entries (payload : EntryPayload)
deriving Repr, DecidableEq

/-- An HTTP request as assembled by `apiRequest`: method, full URL and
optional JSON body. -/
structure HttpRequest where
  method : String
  url : String
  body : Option ReqBody
deriving Repr, DecidableEq

/-- An entry object as consumed from a search response
(`result.data` elements): the fields the client reads. -/
structure Entry where
  title : String
  type : String
  content : String
  tags : List String
deriving Repr, DecidableEq

/-- A quick-pick item built in `search` from an entry. -/
structure QuickPickItem where
  label : String
  description : String
  detail : String
  entry : Entry
deriving Repr, DecidableEq

/-- Statistics object read from `/api/stats` responses. -/
structure Stats where
  totalEntries : Nat
  totalTags : Nat
  searchHistoryCount : Nat
  byType : List (String × Nat)
deriving Repr, DecidableEq

/-- `/api/ask` response data: the client reads `result.data.answer`. -/
structure AskData where
  answer : String
deriving Repr, DecidableEq

/-- Envelope of an `/api/ask` response as the client reads it. -/
structure AskResponse where
  success : Bool
  data : AskData
deriving Repr, DecidableEq

/-- Envelope of a `/api/search` response as the client reads it. -/
structure SearchResponse where
  success : Bool
  data : List Entry
deriving Repr, DecidableEq

/-- Envelope of a `/api/entries` response: the client only reads
`result.success`. -/
structure EntriesResponse where
  success : Bool
deriving Repr, DecidableEq

/-- Envelope of a `/api/stats` response as the client reads it. -/
structure StatsResponse where
  success : Bool
  data : Stats
deriving Repr, DecidableEq

/-- Observable effects of a command handler, in program order. -/
inductive Effect where
  | httpRequest (req : HttpRequest)
  | errorMessage (msg : String)
  | warningMessage (msg : String)
  | infoMessage (msg : String)
  | openDocument (content : String) (language : String)
  | quickPick (options : List String)
  | searchQuickPick (items : List QuickPickItem)
  | mkdir (dir : String)
deriving Repr, DecidableEq

/-- `apiRequest(method, endpoint, data)` : builds
`url = getApiUrl() + endpoint` and performs the fetch, whose outcome is
the explicit argument `net`.  On success it returns the parsed JSON
value; on a thrown error it shows an error notification and returns
`null` (modelled as `none`).  The issued request is recorded as an
effect in both cases, since `fetch` is attempted before it can throw. -/
def apiRequest {α : Type} (cfg : Config) (method endpoint : String)
    (body : Option ReqBody) (net : Except String α) :
    List Effect × Option α :=
  let url := getApiUrl cfg ++ endpoint
  match net with
  | .ok v => ([.httpRequest ⟨method, url, body⟩], some v)
  | .error e =>
      ([.httpRequest ⟨method, url, body⟩,
        .errorMessage ("DevKB API error: " ++ e)], none)

/-- `askQuestion` command (`devkb.ask`): prompts for a question
(`question`: `none` = box dismissed, `some s` = submitted text), aborts
when falsy, otherwise POSTs `{question}` to `/api/ask` and renders the
answer or a warning. -/
def askQuestion (cfg : Config) (question : Option String)
    (net : Except String AskResponse) : List Effect :=
  match question with
  | none => []
  | some q =>
    if q.isEmpty then []
    else
      let r := apiRequest cfg "POST" "/api/ask" (some (.ask q)) net
      r.1 ++
        match r.2 with
        | some res =>
          if res.success then
            [.openDocument
              ("# Question: " ++ q ++ "\n\n## Answer\n" ++ res.data.answer)
              "markdown"]
          else
            [.warningMessage
              "Could not get an answer. Make sure the API server is running."]
        | none =>
            [.warningMessage
              "Could not get an answer. Make sure the API server is running."]

/-- Hexadecimal digit characters used for percent-encoding. -/
def hexDigits : List Char :=
  ['0','1','2','3','4','5','6','7','8','9','A','B','C','D','E','F']

/-- The hexadecimal digit for `n < 16`. -/
def hexChar (n : Nat) : Char := hexDigits.getD n '0'

/-- UTF-8 byte sequence of the Unicode scalar value `n`. -/
def utf8Bytes (n : Nat) : List Nat :=
  if n < 0x80 then [n]
  else if n < 0x800 then [0xC0 + n / 64, 0x80 + n % 64]
  else if n < 0x10000 then
    [0xE0 + n / 4096, 0x80 + (n / 64) % 64, 0x80 + n % 64]
  else
    [0xF0 + n / 262144, 0x80 + (n / 4096) % 64,
     0x80 + (n / 64) % 64, 0x80 + n % 64]

/-- The characters `encodeURIComponent` leaves unescaped besides ASCII
letters and digits: `- _ . ! ~ * ' ( )` (the apostrophe is written via
its code point). -/
def uriMarks : List Char :=
  ['-', '_', '.', '!', '~', '*', Char.ofNat 39, '(', ')']

/-- Whether `encodeURIComponent` leaves the character unescaped. -/
def isUriUnreserved (c : Char) : Bool :=
  c.isAlphanum || uriMarks.contains c

/-- Percent-encoding of one character: `%HH` per UTF-8 byte. -/
def percentEncodeChar (c : Char) : String :=
  String.join ((utf8Bytes c.toNat).map fun b =>
    "%" ++ String.mk [hexChar (b / 16), hexChar (b % 16)])

/-- JavaScript `encodeURIComponent`: unreserved characters kept,
every other character percent-encoded byte by byte. -/
def encodeURIComponent (s : String) : String :=
  String.join (s.toList.map fun c =>
    if isUriUnreserved c then String.mk [c] else percentEncodeChar c)

/-- The quick-pick item `search` builds from a result entry:
label = title, description = type, detail = first 100 characters of
the content followed by an ellipsis (`content.substring(0, 100) + '...'`). -/
def searchItem (e : Entry) : QuickPickItem :=
  ⟨e.title, e.type, jsSubstring e.content 100 ++ "...", e⟩

/-- The markdown document `search` opens for a selected entry. -/
def searchDoc (e : Entry) : String :=
  "# " ++ e.title ++ "\n\n**Type:** " ++ e.type ++ "\n**Tags:** " ++
    String.intercalate ", " e.tags ++ "\n\n---\n\n" ++ e.content

/-- `search` command (`devkb.search`): prompts for a query, aborts when
falsy, otherwise GETs `/api/search?q=<encoded>`.  With a successful
non-empty result it shows a quick pick (`selection` = index the user
picks, if any) and opens the chosen entry; otherwise it shows
'No results found.'. -/
def search (cfg : Config) (query : Option String)
    (net : Except String SearchResponse) (selection : Option Nat) :
    List Effect :=
  match query with
  | none => []
  | some q =>
    if q.isEmpty then []
    else
      let r := apiRequest cfg "GET"
        ("/api/search?q=" ++ encodeURIComponent q) none net
      r.1 ++
        match r.2 with
        | some res =>
          if res.success && decide (0 < res.data.length) then
            let items := res.data.map searchItem
            [.searchQuickPick items] ++
              match selection with
              | some i =>
                match items.get? i with
                | some sel => [.openDocument (searchDoc sel.entry) "markdown"]
                | none => []
              | none => []
          else [.infoMessage "No results found."]
        | none => [.infoMessage "No results found."]

/-- The six entry types offered by the quick pick in `addEntry`. -/
def entryTypes : List String :=
  ["code", "documentation", "decision", "conversation", "architecture",
   "process"]

/-- `tags ? tags.split(',').map(t => t.trim()) : []` : the tags array
sent in the entry payload. -/
def parseTags (tagsInput : Option String) : List String :=
  match tagsInput with
  | none => []
  | some s => if s.isEmpty then [] else (jsSplit s (Char.ofNat 44)).map jsTrim

/-- `addEntry` command (`devkb.addEntry`): quick-picks a type from
`entryTypes` (`typePick` = chosen index, `none` = dismissed), prompts
for title, content and tags, falls back to the editor selection
(`selectedText`: `none` = no active editor) for empty content, and
POSTs the payload to `/api/entries`. -/
def addEntry (cfg : Config) (selectedText : Option String)
    (typePick : Option (Fin entryTypes.length))
    (title content tagsInput : Option String)
    (net : Except String EntriesResponse) : List Effect :=
  .quickPick entryTypes ::
    match typePick with
    | none => []
    | some i =>
      match title with
      | none => []
      | some t =>
        if t.isEmpty then []
        else
          if strFalsy content && strFalsy selectedText then
            [.warningMessage "Content is required"]
          else
            let c := jsOrStr content (jsOrStr selectedText "")
            let payload : EntryPayload :=
              ⟨entryTypes.get i, t, c, parseTags tagsInput, "vscode"⟩
            let r := apiRequest cfg "POST" "/api/entries"
              (some (.entries payload)) net
            r.1 ++
              match r.2 with
              | some res =>
                if res.success then
                  [.infoMessage
                    ("Entry \"" ++ t ++ "\" created successfully!")]
                else [.errorMessage "Failed to create entry"]
              | none => [.errorMessage "Failed to create entry"]

/-- Model of Node `path.join(base, rel)` for an absolute base and a
plain relative segment: base, separator, segment. -/
def pathJoin (a b : String) : String := a ++ "/" ++ b

/-- The local data directory `indexProject` computes:
`path.join(workspaceFolders[0].uri.fsPath, getDataDir())`, or `none`
when no workspace folder is open. -/
def indexDataDir (folders : List String) (cfg : Config) : Option String :=
  match folders with
  | [] => none
  | f :: _ => some (pathJoin f (getDataDir cfg))

/-- `indexProject` command (`devkb.index`): warns when no workspace
folder is open; otherwise creates the data directory when missing
(`dirExists` = result of `fs.existsSync`) and reports the number of
files found (`fileCount` = result of `findFiles`). -/
def indexProject (cfg : Config) (folders : List String)
    (dirExists : Bool) (fileCount : Nat) : List Effect :=
  match folders with
  | [] => [.warningMessage "No workspace folder open"]
  | f :: _ =>
    let dataDir := pathJoin f (getDataDir cfg)
    (if dirExists then [] else [.mkdir dataDir]) ++
      [.infoMessage ("Found " ++ toString fileCount ++ " files to index"),
       .infoMessage "Use the DevKB CLI to index: devkb index"]

/-- The notification text `showStats` assembles from a stats object. -/
def statsMessage (s : Stats) : String :=
  String.intercalate "\n"
    (["Total Entries: " ++ toString s.totalEntries,
      "Unique Tags: " ++ toString s.totalTags,
      "Searches: " ++ toString s.searchHistoryCount,
      "",
      "By Type:"] ++
      s.byType.map fun p => "  " ++ p.1 ++ ": " ++ toString p.2)

/-- `showStats` command (`devkb.stats`): GETs `/api/stats` and shows the
formatted statistics or a warning. -/
def showStats (cfg : Config) (net : Except String StatsResponse) :
    List Effect :=
  let r := apiRequest cfg "GET" "/api/stats" none net
  r.1 ++
    match r.2 with
    | some res =>
      if res.success then [.infoMessage (statsMessage res.data)]
      else [.warningMessage "Could not load statistics"]
    | none => [.warningMessage "Could not load statistics"]


/-! ## Helper lemmas -/

/-- A string whose `isEmpty` test is false is not the empty string. -/
theorem ne_empty_of_isEmpty_false {s : String} (h : s.isEmpty = false) :
    s ≠ "" := by
  intro hs
  rw [hs] at h
  exact absurd h (by decide)

/-- The content `addEntry` sends is non-empty whenever the guard
`!content && !selectedText` fails. -/
theorem jsOrStr_content_ne_empty {content selectedText : Option String}
    (h : (strFalsy content && strFalsy selectedText) = false) :
    jsOrStr content (jsOrStr selectedText "") ≠ "" := by
  cases content with
  | none =>
    cases selectedText with
    | none => simp [strFalsy] at h
    | some s =>
      simp [strFalsy] at h
      simp [jsOrStr, h]
      exact ne_empty_of_isEmpty_false h
  | some c =>
    by_cases hc : c.isEmpty
    · have hs : strFalsy selectedText = false := by
        simp [strFalsy, hc] at h
        exact h
      cases selectedText with
      | none => simp [strFalsy] at hs
      | some s =>
        simp [strFalsy] at hs
        simp [jsOrStr, hc, hs]
        exact ne_empty_of_isEmpty_false hs
    · simp only [Bool.not_eq_true] at hc
      simp [jsOrStr, hc]
      exact ne_empty_of_isEmpty_false hc

/-- The first element surviving `dropWhile p` fails `p`. -/
theorem head_dropWhile_not {α : Type} (p : α → Bool) (l : List α)
    {x : α} {xs : List α} (h : l.dropWhile p = x :: xs) : p x = false := by
  induction l with
  | nil => simp at h
  | cons a as ih =>
    by_cases ha : p a
    · rw [List.dropWhile_cons_of_pos ha] at h
      exact ih h
    · rw [List.dropWhile_cons_of_neg ha] at h
      cases h
      simpa using ha

/-- `dropWhile` keeps a suffix, so a non-empty result keeps the last
element. -/
theorem getLast?_dropWhile {α : Type} (p : α → Bool) (l : List α)
    (h : l.dropWhile p ≠ []) : (l.dropWhile p).getLast? = l.getLast? := by
  induction l with
  | nil => simp at h
  | cons a as ih =>
    by_cases ha : p a
    · rw [List.dropWhile_cons_of_pos ha] at h ⊢
      rw [ih h]
      cases as with
      | nil => simp [List.dropWhile] at h
      | cons b bs => rw [List.getLast?_cons_cons]
    · rw [List.dropWhile_cons_of_neg ha]

/-- `dropWhile` is the identity when the head already fails `p`. -/
theorem dropWhile_eq_self_of_head {α : Type} (p : α → Bool) (l : List α)
    (h : ∀ x, l.head? = some x → p x = false) : l.dropWhile p = l := by
  cases l with
  | nil => rfl
  | cons a as =>
    have := h a rfl
    rw [List.dropWhile_cons_of_neg (by simp [this])]

/-- Trimming a character list twice is the same as trimming it once. -/
theorem jsTrimChars_idem (l : List Char) :
    jsTrimChars (jsTrimChars l) = jsTrimChars l := by
  unfold jsTrimChars
  set ws := Char.isWhitespace with hws
  set A := l.dropWhile ws with hA
  set B := A.reverse.dropWhile ws with hB
  by_cases hBnil : B = []
  · simp [hBnil]
  · have hheadB : ∀ x, B.head? = some x → ws x = false := by
      intro x hx
      cases hcB : B with
      | nil => simp [hcB] at hx
      | cons b bs =>
        rw [hcB] at hx
        simp at hx
        subst hx
        exact head_dropWhile_not ws A.reverse hcB
    have hheadT : ∀ x, B.reverse.head? = some x → ws x = false := by
      intro x hx
      rw [List.head?_reverse] at hx
      rw [getLast?_dropWhile ws A.reverse hBnil, List.getLast?_reverse] at hx
      cases hcA : A with
      | nil => rw [hcA] at hx; simp at hx
      | cons a as =>
        rw [hcA] at hx
        simp at hx
        subst hx
        exact head_dropWhile_not ws l hcA
    rw [dropWhile_eq_self_of_head ws B.reverse hheadT,
      List.reverse_reverse,
      dropWhile_eq_self_of_head ws B hheadB]

/-- `jsTrim` is idempotent: a trimmed string is its own trim. -/
theorem jsTrim_idem (s : String) : jsTrim (jsTrim s) = jsTrim s := by
  simp [jsTrim, jsTrimChars_idem]

/-- Characterization of any HTTP request `addEntry` emits: it is the
`POST /api/entries` request with the payload built from the inputs,
emitted only past all input guards. -/
theorem addEntry_request_eq (cfg : Config) (sel : Option String)
    (typePick : Option (Fin entryTypes.length))
    (title content tagsInput : Option String)
    (net : Except String EntriesResponse) (req : HttpRequest)
    (h : Effect.httpRequest req ∈
      addEntry cfg sel typePick title content tagsInput net) :
    ∃ (i : Fin entryTypes.length) (t : String),
      typePick = some i ∧ title = some t ∧ t.isEmpty = false ∧
      (strFalsy content && strFalsy sel) = false ∧
      req = ⟨"POST", getApiUrl cfg ++ "/api/entries",
        some (.entries ⟨entryTypes.get i, t,
          jsOrStr content (jsOrStr sel ""), parseTags tagsInput,
          "vscode"⟩)⟩ := by
  cases typePick with
  | none => simp [addEntry] at h
  | some i =>
    cases title with
    | none => simp [addEntry] at h
    | some t =>
      by_cases ht : t.isEmpty
      · simp [addEntry, ht] at h
      · by_cases hg : (strFalsy content && strFalsy sel) = true
        · simp [addEntry, ht, hg] at h
        · simp only [Bool.not_eq_true] at ht hg
          refine ⟨i, t, rfl, rfl, ht, hg, ?_⟩
          cases net with
          | ok v =>
            by_cases hv : v.success <;>
              simp [addEntry, apiRequest, ht, hg, hv] at h <;>
              exact h
          | error e =>
            simp [addEntry, apiRequest, ht, hg] at h
            exact h

/-- The request `addEntry` emits once every input guard passes. -/
theorem addEntry_request_mem (cfg : Config) (sel : Option String)
    (i : Fin entryTypes.length) (t : String)
    (content tagsInput : Option String)
    (net : Except String EntriesResponse)
    (ht : t.isEmpty = false)
    (hg : (strFalsy content && strFalsy sel) = false) :
    Effect.httpRequest ⟨"POST", getApiUrl cfg ++ "/api/entries",
      some (.entries ⟨entryTypes.get i, t,
        jsOrStr content (jsOrStr sel ""), parseTags tagsInput, "vscode"⟩)⟩ ∈
      addEntry cfg sel (some i) (some t) content tagsInput net := by
  cases net <;> simp [addEntry, apiRequest, ht, hg]

/-! ## Claims -/

/-- C1: the claim that every tag element the client sends equals its
lowercase form is false: with tags input `"Auth"` the payload carries
the tag `"Auth"`, which differs from its lowercase form `"auth"`. -/
theorem C1_counterexample :
    addEntry ⟨none, none⟩ none (some ⟨0, by decide⟩) (some "T") (some "C")
        (some "Auth") (.ok ⟨true⟩) =
      [.quickPick entryTypes,
       .httpRequest ⟨"POST", "http://localhost:3001/api/entries",
         some (.entries ⟨"code", "T", "C", ["Auth"], "vscode"⟩)⟩,
       .infoMessage "Entry \"T\" created successfully!"] ∧
    ¬ ("Auth" = jsToLowerCase "Auth") := by
  constructor
  · decide
  · decide

/-- C1 (amended): the tags the client sends with a non-empty tags
input are the comma-separated segments of the input, each trimmed of
surrounding whitespace — so each element equals its own trimmed form —
but they are not lowercased. -/
theorem C1_tags_trimmed (cfg : Config) (sel : Option String)
    (i : Fin entryTypes.length) (t : String) (content : Option String)
    (s : String) (net : Except String EntriesResponse)
    (ht : t.isEmpty = false)
    (hg : (strFalsy content && strFalsy sel) = false)
    (hs : s.isEmpty = false) :
    Effect.httpRequest ⟨"POST", getApiUrl cfg ++ "/api/entries",
      some (.entries ⟨entryTypes.get i, t,
        jsOrStr content (jsOrStr sel ""),
        (jsSplit s (Char.ofNat 44)).map jsTrim, "vscode"⟩)⟩ ∈
      addEntry cfg sel (some i) (some t) content (some s) net ∧
    ∀ x ∈ (jsSplit s (Char.ofNat 44)).map jsTrim, x = jsTrim x := by
  constructor
  · have hp : parseTags (some s) = (jsSplit s (Char.ofNat 44)).map jsTrim := by
      simp [parseTags, hs]
    rw [← hp]
    exact addEntry_request_mem cfg sel i t content (some s) net ht hg
  · intro x hx
    obtain ⟨y, -, hy⟩ := List.mem_map.mp hx
    rw [← hy, jsTrim_idem]

/-- C1 witness: with tags input `" Auth, jwt"` the emitted request
carries the trimmed, non-lowercased tags `["Auth", "jwt"]`. -/
theorem C1_tags_trimmed_witness :
    Effect.httpRequest ⟨"POST", "http://localhost:3001/api/entries",
      some (.entries ⟨"code", "T", "C", ["Auth", "jwt"], "vscode"⟩)⟩ ∈
      addEntry ⟨none, none⟩ none (some ⟨0, by decide⟩) (some "T")
        (some "C") (some " Auth, jwt") (.ok ⟨true⟩) :=
  (C1_tags_trimmed ⟨none, none⟩ none ⟨0, by decide⟩ "T" (some "C")
    " Auth, jwt" (.ok ⟨true⟩) rfl rfl rfl).1

/-- C2: every request `addEntry` issues is a `POST` to `/api/entries`
whose body is exactly an entry payload `{type, title, content, tags,
source}` with `source = "vscode"`. -/
theorem C2_payload_shape (cfg : Config) (sel : Option String)
    (typePick : Option (Fin entryTypes.length))
    (title content tagsInput : Option String)
    (net : Except String EntriesResponse) (req : HttpRequest)
    (h : Effect.httpRequest req ∈
      addEntry cfg sel typePick title content tagsInput net) :
    req.method = "POST" ∧ req.url = getApiUrl cfg ++ "/api/entries" ∧
      ∃ p : EntryPayload, req.body = some (.entries p) ∧
        p.source = "vscode" := by
  obtain ⟨i, t, -, -, -, -, hreq⟩ :=
    addEntry_request_eq cfg sel typePick title content tagsInput net req h
  subst hreq
  exact ⟨rfl, rfl, _, rfl, rfl⟩

/-- C2 witness: a concrete `addEntry` run issues the `POST
/api/entries` request with `source = "vscode"`. -/
theorem C2_payload_shape_witness :
    (HttpRequest.mk "POST" "http://localhost:3001/api/entries"
        (some (.entries ⟨"code", "T", "C", [], "vscode"⟩))).method =
      "POST" :=
  (C2_payload_shape ⟨none, none⟩ none (some ⟨0, by decide⟩)
    (some "T") (some "C") none (.ok ⟨true⟩)
    ⟨"POST", "http://localhost:3001/api/entries",
      some (.entries ⟨"code", "T", "C", [], "vscode"⟩)⟩ (by decide)).1

/-- C3: the type quick pick offers exactly the six enumeration values,
it is always shown first, a dismissed pick aborts the command with no
request, and any issued payload's type is drawn from the
enumeration. -/
theorem C3_type_enumeration (cfg : Config) (sel : Option String)
    (title content tagsInput : Option String)
    (net : Except String EntriesResponse) :
    entryTypes = ["code", "documentation", "decision", "conversation",
      "architecture", "process"] ∧
    (∀ typePick, (addEntry cfg sel typePick title content tagsInput
        net).head? = some (.quickPick entryTypes)) ∧
    addEntry cfg sel none title content tagsInput net =
      [.quickPick entryTypes] ∧
    (∀ typePick req, Effect.httpRequest req ∈
        addEntry cfg sel typePick title content tagsInput net →
      ∃ p : EntryPayload, req.body = some (.entries p) ∧
        p.type ∈ entryTypes) := by
  refine ⟨rfl, fun typePick => rfl, rfl, fun typePick req h => ?_⟩
  obtain ⟨i, t, -, -, -, -, hreq⟩ :=
    addEntry_request_eq cfg sel typePick title content tagsInput net req h
  subst hreq
  exact ⟨_, rfl, List.get_mem _ _ _⟩

/-- C3 witness: with the pick dismissed, a concrete `addEntry` run
shows only the six-valued quick pick and sends nothing. -/
theorem C3_type_enumeration_witness :
    addEntry ⟨none, none⟩ none none (some "T") (some "C") none
        (.ok ⟨true⟩) = [.quickPick entryTypes] :=
  (C3_type_enumeration ⟨none, none⟩ none (some "T") (some "C")
    none (.ok ⟨true⟩)).2.2.1

/-- C4: `addEntry` aborts without a request on a dismissed or empty
title, warns and aborts when both the content input and the editor
selection are falsy, and every payload it does send has a non-empty
title and a non-empty content. -/
theorem C4_title_content_nonempty (cfg : Config) (sel : Option String)
    (i : Fin entryTypes.length) (t : String)
    (typePick : Option (Fin entryTypes.length))
    (title content tagsInput : Option String)
    (net : Except String EntriesResponse) :
    addEntry cfg sel (some i) none content tagsInput net =
      [.quickPick entryTypes] ∧
    (t.isEmpty = true →
      addEntry cfg sel (some i) (some t) content tagsInput net =
        [.quickPick entryTypes]) ∧
    (t.isEmpty = false → (strFalsy content && strFalsy sel) = true →
      addEntry cfg sel (some i) (some t) content tagsInput net =
        [.quickPick entryTypes, .warningMessage "Content is required"]) ∧
    (∀ req p, Effect.httpRequest req ∈
        addEntry cfg sel typePick title content tagsInput net →
      req.body = some (.entries p) → p.title ≠ "" ∧ p.content ≠ "") := by
  refine ⟨rfl, fun ht => by simp [addEntry, ht],
    fun ht hg => by simp [addEntry, ht, hg], fun req p h hp => ?_⟩
  obtain ⟨j, u, -, -, hu, hg, hreq⟩ :=
    addEntry_request_eq cfg sel typePick title content tagsInput net req h
  subst hreq
  simp only [Option.some.injEq, ReqBody.entries.injEq] at hp
  subst hp
  exact ⟨ne_empty_of_isEmpty_false hu, jsOrStr_content_ne_empty hg⟩

/-- C4 witness: the concrete payload of a concrete `addEntry` run has
non-empty title and content. -/
theorem C4_title_content_nonempty_witness :
    ("T" : String) ≠ "" ∧ ("C" : String) ≠ "" :=
  (C4_title_content_nonempty ⟨none, none⟩ none ⟨0, by decide⟩ "x"
      (some ⟨0, by decide⟩) (some "T") (some "C") none (.ok ⟨true⟩)).2.2.2
    ⟨"POST", "http://localhost:3001/api/entries",
      some (.entries ⟨"code", "T", "C", [], "vscode"⟩)⟩
    ⟨"code", "T", "C", [], "vscode"⟩ (by decide) rfl


/-- C5: with `devkb.apiUrl` unset or empty, every request URL is the
default base `http://localhost:3001` with the endpoint appended
unchanged. -/
theorem C5_default_api_url {α : Type} (cfg : Config) (m ep : String)
    (b : Option ReqBody) (net : Except String α)
    (h : cfg.apiUrl = none ∨ cfg.apiUrl = some "") :
    getApiUrl cfg = "http://localhost:3001" ∧
    (apiRequest cfg m ep b net).1.head? =
      some (.httpRequest ⟨m, "http://localhost:3001" ++ ep, b⟩) := by
  have hu : getApiUrl cfg = "http://localhost:3001" := by
    rcases h with h | h <;> unfold getApiUrl <;> rw [h] <;> rfl
  refine ⟨hu, ?_⟩
  cases net <;> simp [apiRequest, hu]

/-- C5 witness: the default base URL on an unset configuration. -/
theorem C5_default_api_url_witness :
    getApiUrl ⟨none, none⟩ = "http://localhost:3001" :=
  (@C5_default_api_url EntriesResponse ⟨none, none⟩ "GET" "/api/stats"
    none (.ok ⟨true⟩) (Or.inl rfl)).1

/-- C6: with `devkb.dataDir` unset or empty, the index command uses
`.devkb` joined under the first workspace folder as its data
directory, and creates exactly that directory when it is missing. -/
theorem C6_default_data_dir (cfg : Config) (f : String)
    (rest : List String) (n : Nat)
    (h : cfg.dataDir = none ∨ cfg.dataDir = some "") :
    indexDataDir (f :: rest) cfg = some (f ++ "/.devkb") ∧
    Effect.mkdir (f ++ "/.devkb") ∈
      indexProject cfg (f :: rest) false n := by
  have hd : getDataDir cfg = ".devkb" := by
    rcases h with h | h <;> unfold getDataDir <;> rw [h] <;> rfl
  have hj : pathJoin f ".devkb" = f ++ "/.devkb" := by
    unfold pathJoin
    rw [String.append_assoc]
    rfl
  constructor
  · simp [indexDataDir, hd, hj]
  · simp [indexProject, hd, hj]

/-- C6 witness: the concrete data directory under a workspace folder. -/
theorem C6_default_data_dir_witness :
    indexDataDir ["/ws"] ⟨none, none⟩ = some "/ws/.devkb" :=
  (C6_default_data_dir ⟨none, none⟩ "/ws" [] 0 (Or.inl rfl)).1

/-- C7: `askQuestion` issues a request exactly when the input box
returns a non-empty string, and that string is the `question` field of
the `POST /api/ask` body. -/
theorem C7_ask_nonempty (cfg : Config) (question : Option String)
    (net : Except String AskResponse) :
    (∀ req, Effect.httpRequest req ∈ askQuestion cfg question net →
      ∃ q, question = some q ∧ q.isEmpty = false ∧
        req = ⟨"POST", getApiUrl cfg ++ "/api/ask", some (.ask q)⟩) ∧
    (∀ q, question = some q → q.isEmpty = false →
      Effect.httpRequest ⟨"POST", getApiUrl cfg ++ "/api/ask",
        some (.ask q)⟩ ∈ askQuestion cfg question net) := by
  constructor
  · intro req h
    cases question with
    | none => simp [askQuestion] at h
    | some q =>
      by_cases hq : q.isEmpty
      · simp [askQuestion, hq] at h
      · simp only [Bool.not_eq_true] at hq
        refine ⟨q, rfl, hq, ?_⟩
        cases net with
        | ok v =>
          by_cases hv : v.success <;>
            simp [askQuestion, apiRequest, hq, hv] at h <;>
            exact h
        | error e =>
          simp [askQuestion, apiRequest, hq] at h
          exact h
  · intro q hq hne
    subst hq
    cases net <;> simp [askQuestion, apiRequest, hne]

/-- C7 witness: a concrete non-empty question is sent as the
`question` field. -/
theorem C7_ask_nonempty_witness :
    Effect.httpRequest ⟨"POST", "http://localhost:3001/api/ask",
      some (.ask "why?")⟩ ∈
      askQuestion ⟨none, none⟩ (some "why?") (.ok ⟨true, ⟨"ans"⟩⟩) :=
  (C7_ask_nonempty ⟨none, none⟩ (some "why?") (.ok ⟨true, ⟨"ans"⟩⟩)).2
    "why?" rfl rfl

/-- C8: `search` issues a request exactly when the input box returns a
non-empty string, and the query is sent URI-encoded as the `q`
parameter of `GET /api/search`. -/
theorem C8_search_nonempty_encoded (cfg : Config)
    (query : Option String) (net : Except String SearchResponse)
    (selection : Option Nat) :
    (∀ req, Effect.httpRequest req ∈ search cfg query net selection →
      ∃ q, query = some q ∧ q.isEmpty = false ∧
        req = ⟨"GET", getApiUrl cfg ++
          ("/api/search?q=" ++ encodeURIComponent q), none⟩) ∧
    (∀ q, query = some q → q.isEmpty = false →
      Effect.httpRequest ⟨"GET", getApiUrl cfg ++
          ("/api/search?q=" ++ encodeURIComponent q), none⟩ ∈
        search cfg query net selection) := by
  constructor
  · intro req h
    cases query with
    | none => simp [search] at h
    | some q =>
      by_cases hq : q.isEmpty
      · simp [search, hq] at h
      · simp only [Bool.not_eq_true] at hq
        refine ⟨q, rfl, hq, ?_⟩
        cases net with
        | ok v =>
          by_cases hv : (v.success && decide (0 < v.data.length)) = true
          · simp [search, apiRequest, hq, hv] at h
            rcases h with h | h
            · exact h
            · exfalso
              cases selection with
              | none => simp at h
              | some idx =>
                cases hgi : v.data[idx]? with
                | none => simp [hgi] at h
                | some e0 => simp [hgi] at h
          · simp [search, apiRequest, hq, hv] at h
            exact h
        | error e =>
          simp [search, apiRequest, hq] at h
          exact h
  · intro q hq hne
    subst hq
    cases net with
    | ok v =>
      by_cases hv : (v.success && decide (0 < v.data.length)) = true <;>
        simp [search, apiRequest, hne, hv]
    | error e => simp [search, apiRequest, hne]

/-- C8 witness: the query `"a b"` is sent as `q=a%20b`. -/
theorem C8_search_nonempty_encoded_witness :
    Effect.httpRequest ⟨"GET",
      "http://localhost:3001/api/search?q=a%20b", none⟩ ∈
      search ⟨none, none⟩ (some "a b") (.ok ⟨true, []⟩) none :=
  (C8_search_nonempty_encoded ⟨none, none⟩ (some "a b")
    (.ok ⟨true, []⟩) none).2 "a b" rfl rfl


/-- C9: when the fetch throws, `apiRequest` shows the API error
notification and returns `null`, and each command (ask, search,
addEntry, stats) then takes its failure branch — a warning,
information or error message — and opens no document. -/
theorem C9_api_failure (cfg : Config) (e q sq t : String)
    (selct content tagsInput : Option String)
    (i : Fin entryTypes.length) (selIdx : Option Nat)
    (hq : q.isEmpty = false) (hsq : sq.isEmpty = false)
    (ht : t.isEmpty = false)
    (hg : (strFalsy content && strFalsy selct) = false) :
    askQuestion cfg (some q) (.error e) =
      [.httpRequest ⟨"POST", getApiUrl cfg ++ "/api/ask",
        some (.ask q)⟩,
       .errorMessage ("DevKB API error: " ++ e),
       .warningMessage
         "Could not get an answer. Make sure the API server is running."] ∧
    search cfg (some sq) (.error e) selIdx =
      [.httpRequest ⟨"GET", getApiUrl cfg ++
          ("/api/search?q=" ++ encodeURIComponent sq), none⟩,
       .errorMessage ("DevKB API error: " ++ e),
       .infoMessage "No results found."] ∧
    addEntry cfg selct (some i) (some t) content tagsInput (.error e) =
      [.quickPick entryTypes,
       .httpRequest ⟨"POST", getApiUrl cfg ++ "/api/entries",
         some (.entries ⟨entryTypes.get i, t,
           jsOrStr content (jsOrStr selct ""), parseTags tagsInput,
           "vscode"⟩)⟩,
       .errorMessage ("DevKB API error: " ++ e),
       .errorMessage "Failed to create entry"] ∧
    showStats cfg (.error e) =
      [.httpRequest ⟨"GET", getApiUrl cfg ++ "/api/stats", none⟩,
       .errorMessage ("DevKB API error: " ++ e),
       .warningMessage "Could not load statistics"] ∧
    (∀ (α : Type) (m ep : String) (b : Option ReqBody),
      (@apiRequest α cfg m ep b (.error e)).2 = none) ∧
    (∀ c l, Effect.openDocument c l ∉ askQuestion cfg (some q) (.error e)) ∧
    (∀ c l, Effect.openDocument c l ∉ search cfg (some sq) (.error e) selIdx) ∧
    (∀ c l, Effect.openDocument c l ∉
      addEntry cfg selct (some i) (some t) content tagsInput (.error e)) ∧
    (∀ c l, Effect.openDocument c l ∉ showStats cfg (.error e)) := by
  have h1 : askQuestion cfg (some q) (.error e) =
      [.httpRequest ⟨"POST", getApiUrl cfg ++ "/api/ask",
        some (.ask q)⟩,
       .errorMessage ("DevKB API error: " ++ e),
       .warningMessage
         "Could not get an answer. Make sure the API server is running."] := by
    simp [askQuestion, apiRequest, hq]
  have h2 : search cfg (some sq) (.error e) selIdx =
      [.httpRequest ⟨"GET", getApiUrl cfg ++
          ("/api/search?q=" ++ encodeURIComponent sq), none⟩,
       .errorMessage ("DevKB API error: " ++ e),
       .infoMessage "No results found."] := by
    simp [search, apiRequest, hsq]
  have h3 : addEntry cfg selct (some i) (some t) content tagsInput
      (.error e) =
      [.quickPick entryTypes,
       .httpRequest ⟨"POST", getApiUrl cfg ++ "/api/entries",
         some (.entries ⟨entryTypes.get i, t,
           jsOrStr content (jsOrStr selct ""), parseTags tagsInput,
           "vscode"⟩)⟩,
       .errorMessage ("DevKB API error: " ++ e),
       .errorMessage "Failed to create entry"] := by
    simp [addEntry, apiRequest, ht, hg]
  have h4 : showStats cfg (.error e) =
      [.httpRequest ⟨"GET", getApiUrl cfg ++ "/api/stats", none⟩,
       .errorMessage ("DevKB API error: " ++ e),
       .warningMessage "Could not load statistics"] := by
    simp [showStats, apiRequest]
  refine ⟨h1, h2, h3, h4, fun α m ep b => rfl,
    fun c l hm => ?_, fun c l hm => ?_, fun c l hm => ?_,
    fun c l hm => ?_⟩
  · rw [h1] at hm
    simp at hm
  · rw [h2] at hm
    simp at hm
  · rw [h3] at hm
    simp at hm
  · rw [h4] at hm
    simp at hm

/-- C9 witness: a concrete failing ask run shows the API error and the
warning, with no document opened. -/
theorem C9_api_failure_witness :
    askQuestion ⟨none, none⟩ (some "why?") (.error "down") =
      [.httpRequest ⟨"POST", "http://localhost:3001/api/ask",
        some (.ask "why?")⟩,
       .errorMessage "DevKB API error: down",
       .warningMessage
         "Could not get an answer. Make sure the API server is running."] :=
  (C9_api_failure ⟨none, none⟩ "down" "why?" "s" "t" (some "c")
    (some "c") none ⟨0, by decide⟩ none rfl rfl rfl rfl).1

/-- C10: in `search`, an empty result array, a `success = false`
response and a failed request all show 'No results found.'; the quick
pick appears only for a successful non-empty result, and its items
display each entry's title, type and the first 100 characters of its
content. -/
theorem C10_search_branches (cfg : Config) (q e : String)
    (sel : Option Nat) (es : List Entry) (ent : Entry)
    (rest : List Entry) (hq : q.isEmpty = false) :
    search cfg (some q) (.ok ⟨true, []⟩) sel =
      [.httpRequest ⟨"GET", getApiUrl cfg ++
          ("/api/search?q=" ++ encodeURIComponent q), none⟩,
       .infoMessage "No results found."] ∧
    search cfg (some q) (.ok ⟨false, es⟩) sel =
      [.httpRequest ⟨"GET", getApiUrl cfg ++
          ("/api/search?q=" ++ encodeURIComponent q), none⟩,
       .infoMessage "No results found."] ∧
    search cfg (some q) (.error e) sel =
      [.httpRequest ⟨"GET", getApiUrl cfg ++
          ("/api/search?q=" ++ encodeURIComponent q), none⟩,
       .errorMessage ("DevKB API error: " ++ e),
       .infoMessage "No results found."] ∧
    Effect.searchQuickPick ((ent :: rest).map fun x =>
        ⟨x.title, x.type, jsSubstring x.content 100 ++ "...", x⟩) ∈
      search cfg (some q) (.ok ⟨true, ent :: rest⟩) sel := by
  refine ⟨by simp [search, apiRequest, hq],
    by simp [search, apiRequest, hq],
    by simp [search, apiRequest, hq], ?_⟩
  have hitem : (ent :: rest).map searchItem = (ent :: rest).map fun x =>
      QuickPickItem.mk x.title x.type (jsSubstring x.content 100 ++ "...")
        x := by
    simp [searchItem]
  simp [search, apiRequest, hq, ← hitem]

/-- C10 witness: a concrete search with a successful empty result
shows 'No results found.'. -/
theorem C10_search_branches_witness :
    search ⟨none, none⟩ (some "x") (.ok ⟨true, []⟩) none =
      [.httpRequest ⟨"GET",
        "http://localhost:3001/api/search?q=x", none⟩,
       .infoMessage "No results found."] :=
  (C10_search_branches ⟨none, none⟩ "x" "e" none []
    ⟨"t", "code", "c", []⟩ [] rfl).1

end DevKB
